import Mathlib

/-!
Verification of the geodesy module `geography.py` of TrajectoryVisualizer:
slippy-map tile coordinate conversion, Lambert-Andoyer geodetic distance on
the GRS80 ellipsoid, tile-URL grid enumeration, and per-pixel footprint.

The Python module computes with numpy floating point; the embedding models
the arithmetic over the exact reals.  Inside `calc_distance` the only
denominator that is exactly zero in the double-precision program is
`sin(X/2)`: when the central-angle cosine evaluates to exactly 1.0,
`X = arccos(1.0) = 0.0` exactly and the correction divides 0.0 by 0.0,
giving NaN.  The other denominator `cos(X/2)` is never exactly zero in
doubles (for `X = arccos c` with `c` in `[-1, 1]` the value `cos(X/2)` is
at worst about 6.1e-17 at `c = -1.0`), and there its numerator
`sin phi1 + sin phi2` is exactly zero, so that quotient is 0 -- the same
value that total real division (with the 0/0 = 0 convention) assigns, so
the real-number model reproduces the program's finite result there.  The
embedded `calc_distance` therefore returns `Option ℝ`, with `none` exactly
when `sin(X/2) = 0`.  Python's `int()` truncates toward zero, embedded as
`pyInt`; `range a b` clamps an empty range to the empty list, embedded
through `Int.toNat`.
-/

open Real

namespace Geo

/-- Embedding of `np.degrees`: radians to degrees. -/
noncomputable def degrees (r : ℝ) : ℝ := r * 180 / π

/-- Embedding of `np.radians`: degrees to radians. -/
noncomputable def radians (d : ℝ) : ℝ := d * π / 180

/-- Embedding of `tile2latlon(x, y, z)`: tile coordinates to (latitude, longitude),
`n = 2.0**z`, `lon = x/n*360 - 180`, `lat = degrees(arctan(sinh(pi*(1 - 2*y/n))))`. -/
noncomputable def tile2latlon (x y z : ℝ) : ℝ × ℝ :=
  let n : ℝ := (2 : ℝ) ^ z
  let lon_deg := x / n * 360 - 180
  let lat_rad := arctan (sinh (π * (1 - 2 * y / n)))
  (degrees lat_rad, lon_deg)

/-- Embedding of `latlon2tile(lat, lon, z)`: (latitude, longitude) to continuous tile
coordinates, `n = 2.0**z`, `x = (lon+180)/360*n`,
`y = (1 - log(tan(lat_rad) + 1/cos(lat_rad))/pi)/2*n`. -/
noncomputable def latlon2tile (lat lon z : ℝ) : ℝ × ℝ :=
  let n : ℝ := (2 : ℝ) ^ z
  let x := (lon + 180) / 360 * n
  let lat_rad := radians lat
  let y := (1 - Real.log (tan lat_rad + 1 / cos lat_rad) / π) / 2 * n
  (x, y)

/-- GRS80 flattening constant `f` from `calc_distance`. -/
noncomputable def f : ℝ := 1.0 / 298.257222101

/-- GRS80 semi-major axis `A` (meters) from `calc_distance`. -/
noncomputable def A : ℝ := 6378137.0

/-- GRS80 semi-minor axis `B = A * (1 - f)` from `calc_distance`. -/
noncomputable def B : ℝ := A * (1 - f)

/-- Reduced latitude `phi = np.arctan2(B * tan(radians lat), A)` from `calc_distance`;
since `A > 0`, `arctan2(t, A) = arctan (t / A)`. -/
noncomputable def phi (lat : ℝ) : ℝ := arctan (B * tan (radians lat) / A)

/-- Argument of `np.arccos` in `calc_distance`:
`sin phi1 * sin phi2 + cos phi1 * cos phi2 * cos(radians (lon2 - lon1))`. -/
noncomputable def centralCos (lat1 lon1 lat2 lon2 : ℝ) : ℝ :=
  sin (phi lat1) * sin (phi lat2) +
    cos (phi lat1) * cos (phi lat2) * cos (radians (lon2 - lon1))

/-- Local variable `X` of `calc_distance`: the spherical central angle. -/
noncomputable def Xang (lat1 lon1 lat2 lon2 : ℝ) : ℝ :=
  arccos (centralCos lat1 lon1 lat2 lon2)

/-- Local variable `Delta_rho` of `calc_distance` (Lambert-Andoyer correction), as the
code writes it:
`f * ((sin X - X) * ((sin phi1 + sin phi2)/cos(X/2))^2
      - (sin X + X) * ((sin phi1 - sin phi2)/sin(X/2))^2) / 8`. -/
noncomputable def Delta_rho (lat1 lon1 lat2 lon2 : ℝ) : ℝ :=
  f * ((sin (Xang lat1 lon1 lat2 lon2) - Xang lat1 lon1 lat2 lon2) *
        ((sin (phi lat1) + sin (phi lat2)) / cos (Xang lat1 lon1 lat2 lon2 / 2)) ^ 2 -
      (sin (Xang lat1 lon1 lat2 lon2) + Xang lat1 lon1 lat2 lon2) *
        ((sin (phi lat1) - sin (phi lat2)) / sin (Xang lat1 lon1 lat2 lon2 / 2)) ^ 2) / 8

/-- Embedding of `calc_distance(lat1, lon1, lat2, lon2)`.  The Python body evaluates
the correction term unconditionally.  When the central-angle cosine is exactly 1 the
double program computes `X = arccos(1.0) = 0.0` exactly and divides the exactly-zero
numerator `sin phi1 - sin phi2` by `sin(0.0) = 0.0`, yielding NaN: the embedding
returns `none` exactly in that `sin(X/2) = 0` case.  The denominator `cos(X/2)` is
never exactly zero in doubles; in the one real-number case `X = pi` where it
vanishes exactly, its numerator `sin phi1 + sin phi2` also vanishes exactly and the
double program returns the finite `A * pi`, the same value the total real division
(0/0 = 0) in `Delta_rho` produces, so no guard is placed on it. -/
noncomputable def calc_distance (lat1 lon1 lat2 lon2 : ℝ) : Option ℝ :=
  if sin (Xang lat1 lon1 lat2 lon2 / 2) = 0 then
    none
  else
    some (A * (Xang lat1 lon1 lat2 lon2 + Delta_rho lat1 lon1 lat2 lon2))

/-- Embedding of Python `int()` on a real: truncation toward zero. -/
noncomputable def pyInt (r : ℝ) : ℤ := if 0 ≤ r then ⌊r⌋ else ⌈r⌉

/-- Embedding of `url.format(z=zoom, x=x, y=y)`: substitute the placeholders of the
template (braces around z, x, y) by the decimal renderings of the integers. -/
def formatUrl (url : String) (z x y : ℤ) : String :=
  ((url.replace (r"{z}") (toString z)).replace (r"{x}") (toString x)).replace
    (r"{y}") (toString y)

/-- Embedding of `get_tile_urls(url, northwest, southeast, zoom)`:
`x1, y1 = latlon2tile(*northwest, zoom)`, `x2, y2 = latlon2tile(*southeast, zoom)`,
rows `for y in range(int(y1), int(y2)+1)`, columns `for x in range(int(x1), int(x2)+1)`,
cell `url.format(z=zoom, x=x, y=y)`. -/
noncomputable def get_tile_urls (url : String) (northwest southeast : ℝ × ℝ)
    (zoom : ℤ) : List (List String) :=
  let p1 := latlon2tile northwest.1 northwest.2 (zoom : ℝ)
  let p2 := latlon2tile southeast.1 southeast.2 (zoom : ℝ)
  (List.range (pyInt p2.2 + 1 - pyInt p1.2).toNat).map (fun (i : ℕ) =>
    (List.range (pyInt p2.1 + 1 - pyInt p1.1).toNat).map (fun (j : ℕ) =>
      formatUrl url zoom (pyInt p1.1 + (j : ℤ)) (pyInt p1.2 + (i : ℤ))))

/-- Tail of `get_px_in_meter` once `lat, lon, x, y, zoom` are all available:
`lat2, lon2 = tile2latlon(x+1, y+1, zoom)`,
`px_w = calc_distance(lat, lon, lat, lon2) / 256`,
`px_h = calc_distance(lat, lon, lat2, lon) / 256`. -/
noncomputable def px_step (lat lon x y zoom : ℝ) : Option ℝ × Option ℝ :=
  let p2 := tile2latlon (x + 1) (y + 1) zoom
  ((calc_distance lat lon lat p2.2).map (fun d => d / 256),
   (calc_distance lat lon p2.1 lon).map (fun d => d / 256))

/-- Embedding of `get_px_in_meter(lat, lon, x, y, zoom)` with its optional arguments.
If `x` and `y` are both omitted they are derived from `(lat, lon)` via `latlon2tile`
(both of which must then be present, else Python raises); else if `lat` and `lon` are
both omitted they are derived from `(x, y)` via `tile2latlon`; else all four are used
as given.  Argument combinations on which Python raises a `TypeError` map to `none`. -/
noncomputable def get_px_in_meter (lat lon x y : Option ℝ) (zoom : ℝ) :
    Option (Option ℝ × Option ℝ) :=
  match lat, lon, x, y with
  | some lat, some lon, none, none =>
      let t := latlon2tile lat lon zoom
      some (px_step lat lon t.1 t.2 zoom)
  | none, none, some x, some y =>
      let p := tile2latlon x y zoom
      some (px_step p.1 p.2 x y zoom)
  | some lat, some lon, some x, some y => some (px_step lat lon x y zoom)
  | _, _, _, _ => none

/-- Transcription of the specification sentence behind claim C8: continuous tile
coordinates `x = (lon + 180)/360 * 2^zoom` and
`y = (1 - ln(tan(lat_rad) + sec(lat_rad))/pi)/2 * 2^zoom` (with `sec = 1/cos`),
no flooring applied. -/
noncomputable def latlon2tile_spec (lat lon z : ℝ) : ℝ × ℝ :=
  ((lon + 180) / 360 * (2 : ℝ) ^ z,
   (1 - Real.log (tan (lat * π / 180) + 1 / cos (lat * π / 180)) / π) / 2 * (2 : ℝ) ^ z)

/-- Transcription of the specification sentence behind claim C7: the distance is
`A * (X + Delta_rho)` with GRS80 constants `A = 6378137.0`, `f = 1/298.257222101`,
`B = A*(1-f)`, reduced latitudes `phi_i = atan2(B*tan(lat_i), A)` (for `A > 0` this
is `arctan (B*tan(lat_i)/A)`), central angle
`X = acos(sin phi1 sin phi2 + cos phi1 cos phi2 cos(lon2 - lon1))` (angles in
radians), and the correction
`Delta_rho = f/8 * ((sin X - X)*((sin phi1 + sin phi2)/cos(X/2))^2
                    - (sin X + X)*((sin phi1 - sin phi2)/sin(X/2))^2)`. -/
noncomputable def phiSpec (lat : ℝ) : ℝ :=
  arctan (6378137.0 * (1 - 1.0 / 298.257222101) * tan (lat * π / 180) / 6378137.0)

/-- Spherical central angle of the specification formula for claim C7. -/
noncomputable def XangSpec (lat1 lon1 lat2 lon2 : ℝ) : ℝ :=
  arccos (sin (phiSpec lat1) * sin (phiSpec lat2) +
    cos (phiSpec lat1) * cos (phiSpec lat2) * cos ((lon2 - lon1) * π / 180))

noncomputable def calc_distance_spec (lat1 lon1 lat2 lon2 : ℝ) : ℝ :=
  6378137.0 * (XangSpec lat1 lon1 lat2 lon2 +
    (1.0 / 298.257222101) / 8 *
      ((sin (XangSpec lat1 lon1 lat2 lon2) - XangSpec lat1 lon1 lat2 lon2) *
          ((sin (phiSpec lat1) + sin (phiSpec lat2)) /
            cos (XangSpec lat1 lon1 lat2 lon2 / 2)) ^ 2 -
        (sin (XangSpec lat1 lon1 lat2 lon2) + XangSpec lat1 lon1 lat2 lon2) *
          ((sin (phiSpec lat1) - sin (phiSpec lat2)) /
            sin (XangSpec lat1 lon1 lat2 lon2 / 2)) ^ 2))

theorem n_pos (z : ℝ) : (0 : ℝ) < (2 : ℝ) ^ z :=
  Real.rpow_pos_of_pos two_pos z

theorem n_ne_zero (z : ℝ) : ((2 : ℝ) ^ z : ℝ) ≠ 0 :=
  ne_of_gt (n_pos z)

/-- Secant-tangent evaluation at `arctan (sinh t)`:
`tan (arctan (sinh t)) + 1 / cos (arctan (sinh t)) = exp t`. -/
theorem tan_add_sec_arctan_sinh (t : ℝ) :
    tan (arctan (sinh t)) + 1 / cos (arctan (sinh t)) = exp t := by
  rw [Real.tan_arctan, Real.cos_arctan, one_div, one_div, inv_inv]
  have hsq : (1 : ℝ) + sinh t ^ 2 = cosh t ^ 2 := by rw [Real.cosh_sq]; ring
  rw [hsq, Real.sqrt_sq (le_of_lt (Real.cosh_pos t)), Real.sinh_add_cosh]

/-- Exact inverse direction used everywhere: `latlon2tile` undoes `tile2latlon`
for any real tile coordinates and any real zoom. -/
theorem latlon2tile_tile2latlon (x y z : ℝ) :
    latlon2tile (tile2latlon x y z).1 (tile2latlon x y z).2 z = (x, y) := by
  have hn : ((2 : ℝ) ^ z : ℝ) ≠ 0 := n_ne_zero z
  have hπ : (π : ℝ) ≠ 0 := ne_of_gt Real.pi_pos
  unfold latlon2tile tile2latlon
  simp only
  rw [Prod.ext_iff]
  constructor
  · field_simp
    ring
  · simp only
    have hrad : radians (degrees (arctan (sinh (π * (1 - 2 * y / (2 : ℝ) ^ z))))) =
        arctan (sinh (π * (1 - 2 * y / (2 : ℝ) ^ z))) := by
      unfold radians degrees
      field_simp
    rw [hrad, tan_add_sec_arctan_sinh, Real.log_exp]
    field_simp
    ring

/-- Evaluation of `sinh` at a logarithm of a positive real. -/
theorem sinh_log_eq {u : ℝ} (hu : 0 < u) : sinh (Real.log u) = (u - u⁻¹) / 2 := by
  rw [Real.sinh_eq, Real.exp_neg, Real.exp_log hu]

/-- Inverse Mercator identity: for `r` strictly between the poles,
`arctan (sinh (log (tan r + 1/cos r))) = r`. -/
theorem mercator_inv {r : ℝ} (h1 : -(π / 2) < r) (h2 : r < π / 2) :
    arctan (sinh (Real.log (tan r + 1 / cos r))) = r := by
  have hc : 0 < cos r := Real.cos_pos_of_mem_Ioo ⟨h1, h2⟩
  have hc' : cos r ≠ 0 := ne_of_gt hc
  have hs : -1 < sin r := by
    have h := Real.sin_lt_sin_of_lt_of_le_pi_div_two (le_refl (-(π / 2))) (le_of_lt h2) h1
    rwa [Real.sin_neg, Real.sin_pi_div_two] at h
  have hs1 : sin r + 1 ≠ 0 := by intro hh; linarith
  have hu : 0 < tan r + 1 / cos r := by
    rw [Real.tan_eq_sin_div_cos, div_add_div_same]
    exact div_pos (by linarith) hc
  have hsinh : sinh (Real.log (tan r + 1 / cos r)) = tan r := by
    rw [sinh_log_eq hu, Real.tan_eq_sin_div_cos, div_add_div_same, inv_div]
    field_simp
    nlinarith [Real.sin_sq_add_cos_sq r]
  rw [hsinh, Real.arctan_tan h1 h2]

/-- Exact inverse direction: `tile2latlon` undoes `latlon2tile` for latitudes strictly
inside the open interval (-90, 90). -/
theorem tile2latlon_latlon2tile (lat lon z : ℝ) (h1 : -90 < lat) (h2 : lat < 90) :
    tile2latlon (latlon2tile lat lon z).1 (latlon2tile lat lon z).2 z = (lat, lon) := by
  have hn : ((2 : ℝ) ^ z : ℝ) ≠ 0 := n_ne_zero z
  have hπ : (0 : ℝ) < π := Real.pi_pos
  have hr1 : -(π / 2) < radians lat := by
    unfold radians
    nlinarith [mul_pos (show (0 : ℝ) < lat + 90 by linarith) hπ]
  have hr2 : radians lat < π / 2 := by
    unfold radians
    nlinarith [mul_pos (show (0 : ℝ) < 90 - lat by linarith) hπ]
  unfold tile2latlon latlon2tile
  simp only
  rw [Prod.ext_iff]
  constructor
  · have harg : π * (1 - 2 *
        ((1 - Real.log (tan (radians lat) + 1 / cos (radians lat)) / π) / 2 * (2 : ℝ) ^ z) /
          (2 : ℝ) ^ z) =
        Real.log (tan (radians lat) + 1 / cos (radians lat)) := by
      field_simp
      ring
    rw [harg, mercator_inv hr1 hr2]
    unfold degrees radians
    field_simp
  · field_simp
    ring

/-- Strict monotonicity of the y tile coordinate: a strictly larger latitude inside
(-90, 90) gives a strictly smaller y, at any zoom. -/
theorem latlon2tile_y_lt (z lon1 lon2 : ℝ) {lat1 lat2 : ℝ}
    (h1 : -90 < lat2) (h2 : lat2 < lat1) (h3 : lat1 < 90) :
    (latlon2tile lat1 lon1 z).2 < (latlon2tile lat2 lon2 z).2 := by
  have hn : (0 : ℝ) < (2 : ℝ) ^ z := n_pos z
  have hπ : (0 : ℝ) < π := Real.pi_pos
  have hr11 : -(π / 2) < radians lat1 := by
    unfold radians
    nlinarith [mul_pos (show (0 : ℝ) < lat1 + 90 by linarith) hπ]
  have hr12 : radians lat1 < π / 2 := by
    unfold radians
    nlinarith [mul_pos (show (0 : ℝ) < 90 - lat1 by linarith) hπ]
  have hr21 : -(π / 2) < radians lat2 := by
    unfold radians
    nlinarith [mul_pos (show (0 : ℝ) < lat2 + 90 by linarith) hπ]
  have hr22 : radians lat2 < π / 2 := by
    unfold radians
    nlinarith [mul_pos (show (0 : ℝ) < 90 - lat2 by linarith) hπ]
  have hL : Real.log (tan (radians lat2) + 1 / cos (radians lat2)) <
      Real.log (tan (radians lat1) + 1 / cos (radians lat1)) := by
    by_contra hcon
    push_neg at hcon
    have hmono := Real.arctan_strictMono.monotone (Real.sinh_le_sinh.mpr hcon)
    rw [mercator_inv hr11 hr12, mercator_inv hr21 hr22] at hmono
    unfold radians at hmono
    nlinarith
  have hd : Real.log (tan (radians lat2) + 1 / cos (radians lat2)) / π <
      Real.log (tan (radians lat1) + 1 / cos (radians lat1)) / π :=
    (div_lt_div_iff_of_pos_right hπ).mpr hL
  unfold latlon2tile
  simp only
  nlinarith [mul_pos hn (sub_pos.mpr hd)]

/-- Strict monotonicity of the x tile coordinate in the longitude, at any zoom. -/
theorem latlon2tile_x_lt (z lat1 lat2 : ℝ) {lon1 lon2 : ℝ} (h : lon1 < lon2) :
    (latlon2tile lat1 lon1 z).1 < (latlon2tile lat2 lon2 z).1 := by
  have hn : (0 : ℝ) < (2 : ℝ) ^ z := n_pos z
  unfold latlon2tile
  simp only
  have hq : (lon1 + 180) / 360 < (lon2 + 180) / 360 := by linarith
  nlinarith [mul_pos (sub_pos.mpr hq) hn]

/-- Python truncation toward zero is monotone. -/
theorem pyInt_mono {r s : ℝ} (h : r ≤ s) : pyInt r ≤ pyInt s := by
  unfold pyInt
  by_cases hr : 0 ≤ r
  · rw [if_pos hr, if_pos (le_trans hr h)]
    exact Int.floor_mono h
  · by_cases hs : 0 ≤ s
    · rw [if_neg hr, if_pos hs]
      refine le_trans (Int.ceil_le.mpr ?_) (Int.floor_nonneg.mpr hs)
      exact_mod_cast le_of_lt (lt_of_not_le hr)
    · rw [if_neg hr, if_neg hs]
      exact Int.ceil_mono h

/-- Reduced latitude of the equator is zero. -/
theorem phi_zero : phi 0 = 0 := by
  unfold phi radians
  simp

/-- Claim C1.  The specification requires `calc_distance(lat, lon, lat, lon)` to be
special-cased to return exactly 0.  The code has no such guard: for coincident
arguments the central-angle cosine is exactly 1, so `X = arccos 1 = 0` and the
correction term divides by `sin(X/2) = 0`; the float result is NaN, never 0.  In the
embedding the coincident case therefore yields `none` for every latitude and
longitude. -/
theorem calc_distance_coincident (lat lon : ℝ) :
    calc_distance lat lon lat lon = none := by
  have hc : centralCos lat lon lat lon = 1 := by
    unfold centralCos radians
    rw [sub_self, zero_mul, zero_div, Real.cos_zero, mul_one]
    nlinarith [Real.sin_sq_add_cos_sq (phi lat)]
  unfold calc_distance Xang
  rw [hc, Real.arccos_one, if_pos (by norm_num)]

/-- Symmetry of the central-angle cosine under swapping the two points. -/
theorem centralCos_symm (lat1 lon1 lat2 lon2 : ℝ) :
    centralCos lat1 lon1 lat2 lon2 = centralCos lat2 lon2 lat1 lon1 := by
  unfold centralCos radians
  rw [show (lon1 - lon2) * π / 180 = -((lon2 - lon1) * π / 180) by ring, Real.cos_neg]
  ring

set_option maxHeartbeats 1000000 in
/-- Claim C9.  `calc_distance` is symmetric in its two points: the central angle uses
the even function `cos` of the longitude difference, and the correction term is
invariant under swapping the reduced latitudes; the guarded (NaN) cases coincide as
well, so the results agree for all arguments. -/
theorem calc_distance_symm (lat1 lon1 lat2 lon2 : ℝ) :
    calc_distance lat1 lon1 lat2 lon2 = calc_distance lat2 lon2 lat1 lon1 := by
  unfold calc_distance Delta_rho Xang
  rw [centralCos_symm lat1 lon1 lat2 lon2]
  split_ifs with h
  · rfl
  · exact congrArg some (by ring)

/-- Counterexample to claim C7 as stated: the argument pair (0, 0) and (0, 360) is
non-coincident in the sense of the specification's coincidence test
(`lat1 == lat2 and lon1 == lon2` fails, since `lon1 = 0` differs from `lon2 = 360`)
and both latitudes are strictly inside (-90, 90), yet the central-angle cosine is
`cos(radians 360) = cos(2*pi) = 1` (also exactly 1.0 in double precision, where
`np.cos(np.radians(360.0))` rounds to 1.0), so `X = arccos(1.0) = 0.0` and the code
divides 0 by `sin(X/2) = 0`, producing NaN (embedded: `none`) instead of the claimed
real value `A * (X + Delta_rho)`. -/
theorem calc_distance_wraparound_none :
    calc_distance 0 0 0 360 = none := by
  have hc : centralCos 0 0 0 360 = 1 := by
    unfold centralCos radians
    rw [phi_zero]
    rw [show ((360 : ℝ) - 0) * π / 180 = 2 * π by ring]
    simp [Real.cos_two_pi]
  unfold calc_distance Xang
  rw [hc, Real.arccos_one, if_pos (by norm_num)]

set_option maxHeartbeats 1000000 in
/-- Claim C7 (amended).  For latitudes strictly inside (-90, 90) and a central-angle
cosine strictly below 1 (that is, excluding the configurations that coincide on the
reduced sphere, such as equal points or a longitude difference that is a nonzero
multiple of 360), `calc_distance` returns exactly the Lambert-Andoyer value
`A * (X + Delta_rho)` of the specification, with the GRS80 constants, reduced
latitudes, central angle and correction term spelled out in `calc_distance_spec`. -/
theorem calc_distance_formula (lat1 lon1 lat2 lon2 : ℝ)
    (ha : -90 < lat1) (hb : lat1 < 90) (hc : -90 < lat2) (hd : lat2 < 90)
    (hhi : centralCos lat1 lon1 lat2 lon2 < 1) :
    calc_distance lat1 lon1 lat2 lon2 = some (calc_distance_spec lat1 lon1 lat2 lon2) := by
  have hX0 : 0 < Xang lat1 lon1 lat2 lon2 := Real.arccos_pos.mpr hhi
  have hXπ : Xang lat1 lon1 lat2 lon2 ≤ π :=
    Real.arccos_le_pi (centralCos lat1 lon1 lat2 lon2)
  have hsin : sin (Xang lat1 lon1 lat2 lon2 / 2) ≠ 0 := by
    apply ne_of_gt
    apply Real.sin_pos_of_pos_of_lt_pi
    · linarith
    · linarith [Real.pi_pos]
  unfold calc_distance
  rw [if_neg hsin]
  refine congrArg some ?_
  simp only [calc_distance_spec, XangSpec, phiSpec, Delta_rho, Xang, centralCos, phi,
    radians, B, A, f]
  ring

/-- Evaluation of the central-angle cosine for the witness pair (0,0) and (0,90). -/
theorem centralCos_quarter : centralCos 0 0 0 90 = 0 := by
  unfold centralCos radians
  rw [phi_zero]
  rw [show ((90 : ℝ) - 0) * π / 180 = π / 2 by ring]
  simp

/-- Witness for claim C7 (amended) at the concrete pair (0, 0) and (0, 90). -/
theorem calc_distance_formula_witness :
    ((-90 : ℝ) < 0 ∧ (0 : ℝ) < 90 ∧ centralCos 0 0 0 90 < 1) ∧
      calc_distance 0 0 0 90 = some (calc_distance_spec 0 0 0 90) :=
  ⟨⟨by norm_num, by norm_num, by rw [centralCos_quarter]; norm_num⟩,
    calc_distance_formula 0 0 0 90 (by norm_num) (by norm_num) (by norm_num) (by norm_num)
      (by rw [centralCos_quarter]; norm_num)⟩

/-- Claim C8.  `latlon2tile` returns exactly the continuous coordinates
`x = (lon + 180)/360 * 2^zoom` and `y = (1 - ln(tan(lat_rad) + sec(lat_rad))/pi)/2 *
2^zoom` of the specification (`latlon2tile_spec`), for every latitude, longitude and
real zoom; no flooring or truncation is applied internally. -/
theorem latlon2tile_matches_spec (lat lon z : ℝ) :
    latlon2tile lat lon z = latlon2tile_spec lat lon z := by
  unfold latlon2tile latlon2tile_spec radians
  rfl

/-- Claim C3.  For integer tile coordinates in the valid range at an integer zoom of
at least 1, flooring `latlon2tile` applied to `tile2latlon` at the same zoom returns
exactly the original pair (in the real-number model the round trip is exact, hence
within the claimed 1e-4 tolerance). -/
theorem tile_round_trip (x y z : ℕ) (hz : 1 ≤ z) (hx : x < 2 ^ z) (hy : y < 2 ^ z) :
    ⌊(latlon2tile (tile2latlon (x : ℝ) (y : ℝ) (z : ℝ)).1
        (tile2latlon (x : ℝ) (y : ℝ) (z : ℝ)).2 (z : ℝ)).1⌋ = (x : ℤ) ∧
    ⌊(latlon2tile (tile2latlon (x : ℝ) (y : ℝ) (z : ℝ)).1
        (tile2latlon (x : ℝ) (y : ℝ) (z : ℝ)).2 (z : ℝ)).2⌋ = (y : ℤ) := by
  rw [latlon2tile_tile2latlon]
  constructor
  · exact Int.floor_natCast x
  · exact Int.floor_natCast y

/-- Witness for claim C3 at the concrete tile (1, 1) at zoom 1. -/
theorem tile_round_trip_witness :
    (1 ≤ 1 ∧ 1 < 2 ^ 1 ∧ 1 < 2 ^ 1) ∧
      (⌊(latlon2tile (tile2latlon ((1 : ℕ) : ℝ) ((1 : ℕ) : ℝ) ((1 : ℕ) : ℝ)).1
          (tile2latlon ((1 : ℕ) : ℝ) ((1 : ℕ) : ℝ) ((1 : ℕ) : ℝ)).2 ((1 : ℕ) : ℝ)).1⌋ =
            ((1 : ℕ) : ℤ) ∧
        ⌊(latlon2tile (tile2latlon ((1 : ℕ) : ℝ) ((1 : ℕ) : ℝ) ((1 : ℕ) : ℝ)).1
          (tile2latlon ((1 : ℕ) : ℝ) ((1 : ℕ) : ℝ) ((1 : ℕ) : ℝ)).2 ((1 : ℕ) : ℝ)).2⌋ =
            ((1 : ℕ) : ℤ)) :=
  ⟨⟨le_refl 1, by norm_num, by norm_num⟩,
    tile_round_trip 1 1 1 (le_refl 1) (by norm_num) (by norm_num)⟩

/-- Claim C4.  Calling `get_px_in_meter` with a geographic point and calling it with
the equivalent continuous tile coordinate `latlon2tile lat lon zoom` produce the same
footprint (exactly, in the real-number model), for any latitude strictly inside
(-90, 90), any longitude and any zoom. -/
theorem get_px_in_meter_consistent (lat lon zoom : ℝ) (h1 : -90 < lat) (h2 : lat < 90) :
    get_px_in_meter (some lat) (some lon) none none zoom =
      get_px_in_meter none none (some (latlon2tile lat lon zoom).1)
        (some (latlon2tile lat lon zoom).2) zoom := by
  have hinv := tile2latlon_latlon2tile lat lon zoom h1 h2
  simp only [get_px_in_meter]
  rw [hinv]

/-- Witness for claim C4 at latitude 0, longitude 0, zoom 0. -/
theorem get_px_in_meter_consistent_witness :
    ((-90 : ℝ) < 0 ∧ (0 : ℝ) < 90) ∧
      get_px_in_meter (some 0) (some 0) none none 0 =
        get_px_in_meter none none (some (latlon2tile 0 0 0).1)
          (some (latlon2tile 0 0 0).2) 0 :=
  ⟨⟨by norm_num, by norm_num⟩, get_px_in_meter_consistent 0 0 0 (by norm_num) (by norm_num)⟩

/-- Claim C6.  For each fully supplied input shape (a geographic point with zoom, or
a tile coordinate with zoom; the missing pair derived from the given one),
`get_px_in_meter` returns the pair
`(calc_distance lat lon lat lon2 / 256, calc_distance lat lon lat2 lon / 256)` with
`(lat2, lon2) = tile2latlon (x+1) (y+1) zoom`: width along the same latitude, height
along the same longitude, each divided by 256 (the division mapped over the
possibly-NaN distance). -/
theorem get_px_in_meter_formula (lat lon x y zoom : ℝ) :
    (get_px_in_meter (some lat) (some lon) none none zoom =
      some ((calc_distance lat lon lat
            (tile2latlon ((latlon2tile lat lon zoom).1 + 1)
              ((latlon2tile lat lon zoom).2 + 1) zoom).2).map (fun d => d / 256),
          (calc_distance lat lon
            (tile2latlon ((latlon2tile lat lon zoom).1 + 1)
              ((latlon2tile lat lon zoom).2 + 1) zoom).1 lon).map (fun d => d / 256))) ∧
    (get_px_in_meter none none (some x) (some y) zoom =
      some ((calc_distance (tile2latlon x y zoom).1 (tile2latlon x y zoom).2
            (tile2latlon x y zoom).1
            (tile2latlon (x + 1) (y + 1) zoom).2).map (fun d => d / 256),
          (calc_distance (tile2latlon x y zoom).1 (tile2latlon x y zoom).2
            (tile2latlon (x + 1) (y + 1) zoom).1
            (tile2latlon x y zoom).2).map (fun d => d / 256))) := by
  constructor
  · simp only [get_px_in_meter, px_step]
  · simp only [get_px_in_meter, px_step]

/-- Claim C2 (amended).  For every bounding box (including degenerate ones) the grid
of `get_tile_urls` has row count `max 0 (int(y_se) - int(y_nw) + 1)` and every row
has length `max 0 (int(x_se) - int(x_nw) + 1)`, where `int` is Python truncation
toward zero (`pyInt`), not the floor of the claim, and the `max 0` clamp comes from
Python `range`. -/
theorem get_tile_urls_counts (url : String) (nw se : ℝ × ℝ) (zoom : ℤ) :
    (get_tile_urls url nw se zoom).length =
      (pyInt (latlon2tile se.1 se.2 (zoom : ℝ)).2 + 1 -
        pyInt (latlon2tile nw.1 nw.2 (zoom : ℝ)).2).toNat ∧
    (get_tile_urls url nw se zoom).map List.length =
      List.replicate
        (pyInt (latlon2tile se.1 se.2 (zoom : ℝ)).2 + 1 -
          pyInt (latlon2tile nw.1 nw.2 (zoom : ℝ)).2).toNat
        (pyInt (latlon2tile se.1 se.2 (zoom : ℝ)).1 + 1 -
          pyInt (latlon2tile nw.1 nw.2 (zoom : ℝ)).1).toNat := by
  unfold get_tile_urls
  constructor
  · simp
  · simp [List.map_map, Function.comp_def, List.map_const']

/-- Claim C10.  The grid returned by `get_tile_urls` is always rectangular: the list
of row lengths is a constant list (every row has the single column count computed
once from the corner x coordinates), for every template, corners and zoom. -/
theorem get_tile_urls_rectangular (url : String) (nw se : ℝ × ℝ) (zoom : ℤ) :
    (get_tile_urls url nw se zoom).map List.length =
      List.replicate (get_tile_urls url nw se zoom).length
        (pyInt (latlon2tile se.1 se.2 (zoom : ℝ)).1 + 1 -
          pyInt (latlon2tile nw.1 nw.2 (zoom : ℝ)).1).toNat := by
  unfold get_tile_urls
  simp [List.map_map, Function.comp_def, List.map_const']

/-- Evaluation of `latlon2tile` on the equator at zoom 1 (cast from the integer zoom
of `get_tile_urls`): `x = (lon + 180)/360 * 2` and `y = 1`. -/
theorem latlon2tile_equator (lon : ℝ) :
    latlon2tile 0 lon (((1 : ℤ) : ℝ)) = ((lon + 180) / 360 * 2, 1) := by
  unfold latlon2tile radians
  norm_num [Real.rpow_one, Real.tan_zero, Real.cos_zero, Real.log_one]

/-- Counterexample to claim C2 as stated: for the degenerate box with northwest
(0, 180) east of southeast (0, -180) at zoom 1, the claimed column count
`floor(x_se) - floor(x_nw) + 1` is -1, which no row length can equal; the code
produces one row of length 0. -/
theorem get_tile_urls_claimed_counts_false :
    get_tile_urls (r"u") ((0 : ℝ), (180 : ℝ)) ((0 : ℝ), (-180 : ℝ)) 1 = [[]] ∧
    (⌊(latlon2tile (0 : ℝ) (-180) (((1 : ℤ) : ℝ))).1⌋ -
        ⌊(latlon2tile (0 : ℝ) (180 : ℝ) (((1 : ℤ) : ℝ))).1⌋ + 1 : ℤ) = -1 := by
  have e1 : latlon2tile (0 : ℝ) (180 : ℝ) (((1 : ℤ) : ℝ)) = (2, 1) := by
    rw [latlon2tile_equator]
    norm_num
  have e2 : latlon2tile (0 : ℝ) (-180 : ℝ) (((1 : ℤ) : ℝ)) = (0, 1) := by
    rw [latlon2tile_equator]
    norm_num
  constructor
  · unfold get_tile_urls
    simp only
    rw [e1, e2]
    simp only
    have p2 : pyInt (2 : ℝ) = 2 := by
      unfold pyInt
      rw [if_pos (by norm_num)]
      norm_num
    have p1 : pyInt (1 : ℝ) = 1 := by
      unfold pyInt
      rw [if_pos (by norm_num)]
      norm_num
    have p0 : pyInt (0 : ℝ) = 0 := by
      unfold pyInt
      rw [if_pos (by norm_num)]
      norm_num
    rw [p2, p1, p0]
    norm_num [List.range_succ]
  · rw [e1, e2]
    norm_num

/-- Positivity of a latitude produced by `degrees` of a positive arctangent. -/
theorem degrees_arctan_pos {s : ℝ} (hs : 0 < s) : 0 < degrees (arctan s) := by
  unfold degrees
  have h3 : 0 < arctan s := by
    have h := Real.arctan_strictMono hs
    rwa [Real.arctan_zero] at h
  exact div_pos (mul_pos h3 (by norm_num)) Real.pi_pos

/-- Latitudes produced by `degrees` of an arctangent stay below 90. -/
theorem degrees_arctan_lt_90 (s : ℝ) : degrees (arctan s) < 90 := by
  unfold degrees
  rw [div_lt_iff₀ Real.pi_pos]
  nlinarith [Real.arctan_lt_pi_div_two s, Real.pi_pos]

/-- Evaluation of `tile2latlon` at tile (1, 1), zoom 1: the origin (0, 0). -/
theorem tile2latlon_one_one : tile2latlon 1 1 1 = (0, 0) := by
  unfold tile2latlon degrees
  norm_num [Real.rpow_one, Real.sinh_zero, Real.arctan_zero]

/-- Evaluation of `tile2latlon` at tile (0, -1/2), zoom 1: latitude about 87.9
degrees north on the west edge of the map. -/
theorem tile2latlon_neg_half :
    tile2latlon 0 (-(1 / 2)) 1 = (degrees (arctan (sinh (π * (3 / 2)))), -180) := by
  unfold tile2latlon
  norm_num [Real.rpow_one]

/-- Evaluation of `tile2latlon` at tile (0, 0), zoom 1: latitude about 85.05 degrees
north on the west edge of the map. -/
theorem tile2latlon_origin : tile2latlon 0 0 1 = (degrees (arctan (sinh π)), -180) := by
  unfold tile2latlon
  norm_num [Real.rpow_one]

/-- Python truncation of -1/2 is 0 (where the floor is -1). -/
theorem pyInt_neg_half : pyInt (-(1 / 2) : ℝ) = 0 := by
  unfold pyInt
  rw [if_neg (by norm_num)]
  norm_num

/-- Python truncation of 1. -/
theorem pyInt_one : pyInt (1 : ℝ) = 1 := by
  unfold pyInt
  rw [if_pos (by norm_num)]
  norm_num

/-- Counterexample to claim C5 as stated: the bounding box from
`tile2latlon 0 (-1/2) 1` (northwest, latitude about 87.9 > 0, longitude -180) to
`tile2latlon 1 1 1` (southeast, the origin) is non-degenerate, its corner tile
y-coordinates are y_nw = -1/2 and y_se = 1, so the claimed row range
`floor(y_nw) .. floor(y_se)` has 1 - (-1) + 1 = 3 rows, but the code truncates
toward zero (`int(-0.5) = 0`) and produces only 2 rows. -/
theorem get_tile_urls_floor_false :
    ((tile2latlon 1 1 1).1 < (tile2latlon 0 (-(1 / 2)) 1).1 ∧
      (tile2latlon 0 (-(1 / 2)) 1).2 < (tile2latlon 1 1 1).2) ∧
    (get_tile_urls (r"t") (tile2latlon 0 (-(1 / 2)) 1) (tile2latlon 1 1 1) 1).length = 2 ∧
    (⌊(latlon2tile (tile2latlon 1 1 1).1 (tile2latlon 1 1 1).2 1).2⌋ -
        ⌊(latlon2tile (tile2latlon 0 (-(1 / 2)) 1).1
            (tile2latlon 0 (-(1 / 2)) 1).2 1).2⌋ + 1 : ℤ) = 3 := by
  refine ⟨⟨?_, ?_⟩, ?_, ?_⟩
  · rw [tile2latlon_one_one, tile2latlon_neg_half]
    exact degrees_arctan_pos (Real.sinh_pos_iff.mpr (by positivity))
  · rw [tile2latlon_one_one, tile2latlon_neg_half]
    norm_num
  · unfold get_tile_urls
    simp only [Int.cast_one]
    rw [latlon2tile_tile2latlon, latlon2tile_tile2latlon]
    simp only [List.length_map, List.length_range]
    rw [pyInt_neg_half, pyInt_one]
    decide
  · rw [latlon2tile_tile2latlon, latlon2tile_tile2latlon]
    norm_num

/-- Claim C5 (amended).  For a non-degenerate bounding box with latitudes inside
(-90, 90), `get_tile_urls` returns one row per integer y from `int(y_nw)` to
`int(y_se)` inclusive and one column per integer x from `int(x_nw)` to `int(x_se)`
inclusive — `int` being Python truncation toward zero (`pyInt`), which coincides with
the claimed floor only for non-negative tile coordinates — with the cell in row i,
column j being the template with (zoom, int(x_nw) + j, int(y_nw) + i) substituted;
row 0 is northernmost, column 0 westernmost, and both index ranges are non-empty. -/
theorem get_tile_urls_grid (url : String) (lat1 lon1 lat2 lon2 : ℝ) (zoom : ℤ)
    (h1 : -90 < lat2) (h2 : lat2 < lat1) (h3 : lat1 < 90) (h4 : lon1 < lon2) :
    pyInt (latlon2tile lat1 lon1 (zoom : ℝ)).2 ≤ pyInt (latlon2tile lat2 lon2 (zoom : ℝ)).2 ∧
    pyInt (latlon2tile lat1 lon1 (zoom : ℝ)).1 ≤ pyInt (latlon2tile lat2 lon2 (zoom : ℝ)).1 ∧
    get_tile_urls url (lat1, lon1) (lat2, lon2) zoom =
      (List.range (pyInt (latlon2tile lat2 lon2 (zoom : ℝ)).2 + 1 -
          pyInt (latlon2tile lat1 lon1 (zoom : ℝ)).2).toNat).map (fun (i : ℕ) =>
        (List.range (pyInt (latlon2tile lat2 lon2 (zoom : ℝ)).1 + 1 -
            pyInt (latlon2tile lat1 lon1 (zoom : ℝ)).1).toNat).map (fun (j : ℕ) =>
          formatUrl url zoom (pyInt (latlon2tile lat1 lon1 (zoom : ℝ)).1 + (j : ℤ))
            (pyInt (latlon2tile lat1 lon1 (zoom : ℝ)).2 + (i : ℤ)))) := by
  refine ⟨pyInt_mono (le_of_lt (latlon2tile_y_lt (zoom : ℝ) lon1 lon2 h1 h2 h3)),
    pyInt_mono (le_of_lt (latlon2tile_x_lt (zoom : ℝ) lat1 lat2 h4)), ?_⟩
  unfold get_tile_urls
  rfl

/-- Witness for claim C5 (amended): the box from `(tile2latlon 0 0 1).1` north,
longitude -180, down to the origin, at zoom 1. -/
theorem get_tile_urls_grid_witness :
    ((-90 : ℝ) < 0 ∧ (0 : ℝ) < (tile2latlon 0 0 1).1 ∧ (tile2latlon 0 0 1).1 < 90 ∧
      (-180 : ℝ) < 0) ∧
    (pyInt (latlon2tile (tile2latlon 0 0 1).1 (-180) (((1 : ℤ)) : ℝ)).2 ≤
        pyInt (latlon2tile 0 0 (((1 : ℤ)) : ℝ)).2 ∧
      pyInt (latlon2tile (tile2latlon 0 0 1).1 (-180) (((1 : ℤ)) : ℝ)).1 ≤
        pyInt (latlon2tile 0 0 (((1 : ℤ)) : ℝ)).1 ∧
      get_tile_urls (r"t") ((tile2latlon 0 0 1).1, -180) ((0 : ℝ), (0 : ℝ)) 1 =
        (List.range (pyInt (latlon2tile 0 0 (((1 : ℤ)) : ℝ)).2 + 1 -
            pyInt (latlon2tile (tile2latlon 0 0 1).1 (-180) (((1 : ℤ)) : ℝ)).2).toNat).map
          (fun (i : ℕ) =>
            (List.range (pyInt (latlon2tile 0 0 (((1 : ℤ)) : ℝ)).1 + 1 -
                pyInt (latlon2tile (tile2latlon 0 0 1).1 (-180) (((1 : ℤ)) : ℝ)).1).toNat).map
              (fun (j : ℕ) =>
                formatUrl (r"t") 1
                  (pyInt (latlon2tile (tile2latlon 0 0 1).1 (-180) (((1 : ℤ)) : ℝ)).1 + (j : ℤ))
                  (pyInt (latlon2tile (tile2latlon 0 0 1).1 (-180) (((1 : ℤ)) : ℝ)).2 + (i : ℤ))))) :=
  ⟨⟨by norm_num,
      by rw [tile2latlon_origin]; exact degrees_arctan_pos (Real.sinh_pos_iff.mpr Real.pi_pos),
      by rw [tile2latlon_origin]; exact degrees_arctan_lt_90 _,
      by norm_num⟩,
    get_tile_urls_grid (r"t") (tile2latlon 0 0 1).1 (-180) 0 0 1 (by norm_num)
      (by rw [tile2latlon_origin]; exact degrees_arctan_pos (Real.sinh_pos_iff.mpr Real.pi_pos))
      (by rw [tile2latlon_origin]; exact degrees_arctan_lt_90 _) (by norm_num)⟩
